import Mathlib

/-!
Shallow embedding of `src/ht16k33segmentbig.py` (class `HT16K33SegmentBig`),
the segment encoder for the HT16K33-driven 1.2-inch 4-digit 7-segment display.

The Python class keeps a 16-byte display buffer (`self.buffer`) and the last
colon/decimal-point pattern (`self.point_pattern`), and exposes the setters
`set_colon`, `set_glyph`, `set_number` and `set_character`.  Each setter
validates its arguments with `assert` statements and only then mutates the
buffer; a failed `assert` raises before any write.

We model a call as a function from the encoder state to
`state × Option Err`: the first component is the state of the object when the
call returns or raises (Python mutates in place, so on a raise the caller
still holds the object in whatever state the method left it), the second is
`none` for normal return and `some e` when the call raises.  Python integer
arguments are modelled as `Int` (they may be negative); buffer bytes are `Nat`.
Errors distinguished: `invalidArgument` for a failed `assert`, `nameError` for
an unresolved bare name, `typeError` for `ord` applied to a non-single-char
string.
-/

namespace HT16K33

/-- The ways a setter call can raise in Python. -/
inductive Err where
  | invalidArgument : Err
  | nameError : Err
  | typeError : Err
deriving DecidableEq, Repr

/-- State of one `HT16K33SegmentBig` instance: the 16-byte display buffer and
the stored colon/decimal-point pattern.  (The I2C handle and address held by
the base class play no part in the buffer logic and are omitted.) -/
structure HT16K33SegmentBig where
  buffer : List Nat
  point_pattern : Nat
deriving DecidableEq, Repr

/-- `HT16K33_SEGMENT_COLON_ROW = 0x04` (class constant). -/
def HT16K33_SEGMENT_COLON_ROW : Nat := 0x04

/-- `HT16K33_SEGMENT_MINUS_CHAR = 0x10` (class constant; an index into CHARSET). -/
def HT16K33_SEGMENT_MINUS_CHAR : Nat := 0x10

/-- `HT16K33_SEGMENT_DEGREE_CHAR = 0x11` (class constant; an index into CHARSET).
Note: `set_character` refers to this name WITHOUT the `self.` qualifier, so the
Python lookup inside the method never reaches this class attribute. -/
def HT16K33_SEGMENT_DEGREE_CHAR : Nat := 0x11

/-- `HT16K33_SEGMENT_SPACE_CHAR = 0x00` (class constant; an index into CHARSET). -/
def HT16K33_SEGMENT_SPACE_CHAR : Nat := 0x00

/-- `POS = (0, 2, 6, 8)`: buffer offsets of the four digit glyph slots. -/
def POS : List Nat := [0, 2, 6, 8]

/-- `CHARSET`: the 18-byte segment-pattern table for 0-9, a-f, minus, degree. -/
def CHARSET : List Nat :=
  [0x3F, 0x06, 0x5B, 0x4F, 0x66, 0x6D, 0x7D, 0x07, 0x7F,
   0x6F, 0x5F, 0x7C, 0x58, 0x5E, 0x7B, 0x71, 0x40, 0x63]

/-- `__init__`: `self.buffer = bytearray(16)` (zero-filled) and
`self.point_pattern = 0x00`. -/
def initState : HT16K33SegmentBig :=
  { buffer := List.replicate 16 0, point_pattern := 0x00 }

/-- Python `str.lower()` on the ASCII strings this driver sees: lowercase each
character. -/
def pyLower (s : List Char) : List Char := s.map Char.toLower

/-- Python `ord(s)`: the code point of a one-character string; `TypeError` on a
string of any other length. -/
def pyOrd (s : List Char) : Except Err Nat :=
  match s with
  | [c] => Except.ok c.toNat
  | _ => Except.error Err.typeError

/-- Python `needle in hay` on strings: substring containment (the empty string
is a substring of everything). -/
def strIn (needle hay : List Char) : Bool :=
  (List.range (hay.length + 1)).any fun i => needle.isPrefixOf (hay.drop i)

/-- The `char_val` computation in `set_character` (source lines 132-142): the
`if`/`elif` chain mapping the lowercased string to a CHARSET index, with
`0xFF` as the "unrecognized" sentinel.  The `"deg"` branch executes
`char_val = HT16K33_SEGMENT_DEGREE_CHAR` with a bare name: that name is a
class attribute, not a module global or local, so CPython raises `NameError`
there.  In the `'abcdef'` / `'0123456789'` branches the membership test is
Python substring containment, and `ord` raises `TypeError` when the matched
string is not a single character (e.g. `""` or `"bc"`); when it is a single
character, the guard confines its code point to 97-102 resp. 48-57, so the
`Nat` subtractions below never truncate. -/
def charVal (char : List Char) : Except Err Nat :=
  if char = ['d', 'e', 'g'] then
    Except.error Err.nameError
  else if char = ['-'] then
    Except.ok HT16K33_SEGMENT_MINUS_CHAR
  else if char = [' '] then
    Except.ok HT16K33_SEGMENT_SPACE_CHAR
  else if strIn char ['a', 'b', 'c', 'd', 'e', 'f'] then
    match pyOrd char with
    | Except.ok o => Except.ok (o - 87)
    | Except.error e => Except.error e
  else if strIn char ['0', '1', '2', '3', '4', '5', '6', '7', '8', '9'] then
    match pyOrd char with
    | Except.ok o => Except.ok (o - 48)
    | Except.error e => Except.error e
  else
    Except.ok 0xFF

/-- `set_colon(pattern)`: assert `0 <= pattern < 0x1F`, store it in
`point_pattern` and write it into `buffer[HT16K33_SEGMENT_COLON_ROW]`. -/
def set_colon (st : HT16K33SegmentBig) (pattern : Int) :
    HT16K33SegmentBig × Option Err :=
  if 0 ≤ pattern ∧ pattern < 0x1F then
    ({ buffer := st.buffer.set HT16K33_SEGMENT_COLON_ROW pattern.toNat,
       point_pattern := pattern.toNat }, none)
  else
    (st, some Err.invalidArgument)

/-- `set_glyph(glyph, digit)`: assert `0 <= digit < 4` then
`0 <= glyph < 0x80`, and write `glyph & 0x7F` into `buffer[POS[digit]]`. -/
def set_glyph (st : HT16K33SegmentBig) (glyph digit : Int) :
    HT16K33SegmentBig × Option Err :=
  if 0 ≤ digit ∧ digit < 4 then
    if 0 ≤ glyph ∧ glyph < 0x80 then
      ({ st with buffer :=
           st.buffer.set (POS.getD digit.toNat 0) (glyph.toNat &&& 0x7F) }, none)
    else
      (st, some Err.invalidArgument)
  else
    (st, some Err.invalidArgument)

/-- `set_character(char, digit)`: assert `0 <= digit < 4`, lowercase `char`,
compute `char_val` by the `if`/`elif` chain, assert `char_val != 0xFF`, and
write `CHARSET[char_val]` into `buffer[POS[digit]]`. -/
def set_character (st : HT16K33SegmentBig) (ch : List Char) (digit : Int) :
    HT16K33SegmentBig × Option Err :=
  if 0 ≤ digit ∧ digit < 4 then
    match charVal (pyLower ch) with
    | Except.error e => (st, some e)
    | Except.ok v =>
      if v ≠ 0xFF then
        ({ st with buffer :=
             st.buffer.set (POS.getD digit.toNat 0) (CHARSET.getD v 0) }, none)
      else
        (st, some Err.invalidArgument)
  else
    (st, some Err.invalidArgument)

/-- `set_number(number, digit)`: assert `0 <= digit < 4` then
`0 <= number < 10`, and delegate to `set_character(str(number), digit)`.
Under the assert, `number` is a single decimal digit, so `str(number)` is the
one-character string with code point `48 + number`. -/
def set_number (st : HT16K33SegmentBig) (number digit : Int) :
    HT16K33SegmentBig × Option Err :=
  if 0 ≤ digit ∧ digit < 4 then
    if 0 ≤ number ∧ number < 10 then
      set_character st [Char.ofNat (48 + number.toNat)] digit
    else
      (st, some Err.invalidArgument)
  else
    (st, some Err.invalidArgument)

/-- One public setter call with its arguments. -/
inductive Op where
  | colon (p : Int) : Op
  | glyph (g d : Int) : Op
  | number (n d : Int) : Op
  | character (ch : List Char) (d : Int) : Op

/-- Run one setter call on a state. -/
def runOp (st : HT16K33SegmentBig) : Op → HT16K33SegmentBig × Option Err
  | Op.colon p => set_colon st p
  | Op.glyph g d => set_glyph st g d
  | Op.number n d => set_number st n d
  | Op.character ch d => set_character st ch d

/-- Run a sequence of setter calls, threading the object state (a raising
call leaves the object exactly as it was, so the sequence continues from
that state). -/
def runOps (st : HT16K33SegmentBig) : List Op → HT16K33SegmentBig
  | [] => st
  | op :: ops => runOps (runOp st op).1 ops

/-! ### Shared helper lemmas -/

/-- Reading back the index just written by `List.set`. -/
theorem getD_set_self (l : List Nat) (i a : Nat) (h : i < l.length) :
    (l.set i a).getD i 0 = a := by
  rw [List.getD_eq_getElem?_getD, List.getElem?_set_eq_of_lt a h]
  rfl

/-- `List.set` leaves every other index unchanged. -/
theorem getD_set_ne (l : List Nat) (i j a : Nat) (h : i ≠ j) :
    (l.set i a).getD j 0 = l.getD j 0 := by
  rw [List.getD_eq_getElem?_getD, List.getElem?_set_ne h, List.getD_eq_getElem?_getD]

/-- For a valid digit, `POS[digit]` is one of the four glyph slots. -/
theorem POS_getD_mem (d : Int) (h0 : 0 ≤ d) (h4 : d < 4) :
    POS.getD d.toNat 0 = 0 ∨ POS.getD d.toNat 0 = 2 ∨
    POS.getD d.toNat 0 = 6 ∨ POS.getD d.toNat 0 = 8 := by
  interval_cases d <;> decide

/-- `set_colon` either takes the validated branch (writing the pattern to
index 4 and storing it) or raises leaving the state untouched. -/
theorem set_colon_cases (st : HT16K33SegmentBig) (p : Int) :
    (0 ≤ p ∧ p < 0x1F ∧ set_colon st p =
      ({ buffer := st.buffer.set 4 p.toNat, point_pattern := p.toNat }, none))
    ∨ set_colon st p = (st, some Err.invalidArgument) := by
  unfold set_colon
  split
  · rename_i hp
    exact Or.inl ⟨hp.1, hp.2, rfl⟩
  · exact Or.inr rfl

/-- `set_glyph` either writes a single byte at `POS[digit]` for a valid digit
or raises leaving the state untouched. -/
theorem set_glyph_cases (st : HT16K33SegmentBig) (g d : Int) :
    (0 ≤ d ∧ d < 4 ∧ ∃ v, set_glyph st g d =
      ({ st with buffer := st.buffer.set (POS.getD d.toNat 0) v }, none))
    ∨ set_glyph st g d = (st, some Err.invalidArgument) := by
  unfold set_glyph
  split
  · rename_i hd
    split
    · exact Or.inl ⟨hd.1, hd.2, _, rfl⟩
    · exact Or.inr rfl
  · exact Or.inr rfl

/-- `set_character` either writes one CHARSET byte at `POS[digit]` for a valid
digit or raises leaving the state untouched. -/
theorem set_character_cases (st : HT16K33SegmentBig) (ch : List Char) (d : Int) :
    (0 ≤ d ∧ d < 4 ∧ ∃ v, set_character st ch d =
      ({ st with buffer := st.buffer.set (POS.getD d.toNat 0) (CHARSET.getD v 0) }, none))
    ∨ ∃ e, set_character st ch d = (st, some e) := by
  unfold set_character
  split
  · rename_i hd
    split
    · exact Or.inr ⟨_, rfl⟩
    · split
      · exact Or.inl ⟨hd.1, hd.2, _, rfl⟩
      · exact Or.inr ⟨_, rfl⟩
  · exact Or.inr ⟨_, rfl⟩

/-- `set_number` either writes one CHARSET byte at `POS[digit]` for a valid
digit or raises leaving the state untouched. -/
theorem set_number_cases (st : HT16K33SegmentBig) (n d : Int) :
    (0 ≤ d ∧ d < 4 ∧ ∃ v, set_number st n d =
      ({ st with buffer := st.buffer.set (POS.getD d.toNat 0) (CHARSET.getD v 0) }, none))
    ∨ ∃ e, set_number st n d = (st, some e) := by
  unfold set_number
  split
  · split
    · exact set_character_cases st _ d
    · exact Or.inr ⟨_, rfl⟩
  · exact Or.inr ⟨_, rfl⟩

/-- Every call either writes one byte into a glyph slot leaving
`point_pattern` alone, or writes index 4 and `point_pattern` with the same
value, or leaves the state exactly as it was. -/
theorem runOp_shape (st : HT16K33SegmentBig) (op : Op) :
    (∃ i v, (i = 0 ∨ i = 2 ∨ i = 6 ∨ i = 8) ∧
        (runOp st op).1.buffer = st.buffer.set i v ∧
        (runOp st op).1.point_pattern = st.point_pattern)
    ∨ (∃ p, (runOp st op).1.buffer = st.buffer.set 4 p ∧
        (runOp st op).1.point_pattern = p)
    ∨ (runOp st op).1 = st := by
  cases op with
  | colon p =>
    rcases set_colon_cases st p with ⟨_, _, heq⟩ | heq
    · exact Or.inr (Or.inl ⟨p.toNat, by rw [runOp, heq], by rw [runOp, heq]⟩)
    · exact Or.inr (Or.inr (by rw [runOp, heq]))
  | glyph g d =>
    rcases set_glyph_cases st g d with ⟨h0, h4, v, heq⟩ | heq
    · exact Or.inl ⟨POS.getD d.toNat 0, v, POS_getD_mem d h0 h4,
        by rw [runOp, heq], by rw [runOp, heq]⟩
    · exact Or.inr (Or.inr (by rw [runOp, heq]))
  | number n d =>
    rcases set_number_cases st n d with ⟨h0, h4, v, heq⟩ | ⟨e, heq⟩
    · exact Or.inl ⟨POS.getD d.toNat 0, CHARSET.getD v 0, POS_getD_mem d h0 h4,
        by rw [runOp, heq], by rw [runOp, heq]⟩
    · exact Or.inr (Or.inr (by rw [runOp, heq]))
  | character ch d =>
    rcases set_character_cases st ch d with ⟨h0, h4, v, heq⟩ | ⟨e, heq⟩
    · exact Or.inl ⟨POS.getD d.toNat 0, CHARSET.getD v 0, POS_getD_mem d h0 h4,
        by rw [runOp, heq], by rw [runOp, heq]⟩
    · exact Or.inr (Or.inr (by rw [runOp, heq]))

/-- A call never changes the buffer length. -/
theorem runOp_buffer_length (st : HT16K33SegmentBig) (op : Op) :
    (runOp st op).1.buffer.length = st.buffer.length := by
  rcases runOp_shape st op with ⟨i, v, _, hb, _⟩ | ⟨p, hb, _⟩ | hid
  · rw [hb, List.length_set]
  · rw [hb, List.length_set]
  · rw [hid]

/-- A call sequence never changes the buffer length. -/
theorem runOps_buffer_length (ops : List Op) :
    ∀ st : HT16K33SegmentBig, (runOps st ops).buffer.length = st.buffer.length := by
  induction ops with
  | nil => intro st; rfl
  | cons op ops ih => intro st; rw [runOps, ih, runOp_buffer_length]

/-- The buffer byte at the colon row mirrors `point_pattern`. -/
def mirrors (st : HT16K33SegmentBig) : Prop :=
  st.buffer.getD 4 0 = st.point_pattern

/-- Each call preserves the colon-row mirror invariant. -/
theorem runOp_mirrors (st : HT16K33SegmentBig) (op : Op)
    (hlen : st.buffer.length = 16) (h : mirrors st) : mirrors (runOp st op).1 := by
  rcases runOp_shape st op with ⟨i, v, hi, hb, hp⟩ | ⟨p, hb, hp⟩ | hid
  · unfold mirrors at h ⊢
    rw [hb, hp, getD_set_ne]
    · exact h
    · rcases hi with h4 | h4 | h4 | h4 <;> omega
  · unfold mirrors
    rw [hb, hp, getD_set_self]
    omega
  · rw [hid]
    exact h

/-- Call sequences preserve the colon-row mirror invariant. -/
theorem runOps_mirrors (ops : List Op) :
    ∀ st : HT16K33SegmentBig, st.buffer.length = 16 → mirrors st →
      mirrors (runOps st ops) := by
  induction ops with
  | nil => intro st _ h; exact h
  | cons op ops ih =>
    intro st hlen h
    exact ih _ (by rw [runOp_buffer_length]; exact hlen) (runOp_mirrors st op hlen h)

/-- A call never touches a buffer index outside `{0, 2, 4, 6, 8}`. -/
theorem runOp_pad (st : HT16K33SegmentBig) (op : Op) (j : Nat)
    (hpad : j ≠ 0 ∧ j ≠ 2 ∧ j ≠ 4 ∧ j ≠ 6 ∧ j ≠ 8) :
    (runOp st op).1.buffer.getD j 0 = st.buffer.getD j 0 := by
  rcases runOp_shape st op with ⟨i, v, hi, hb, _⟩ | ⟨p, hb, _⟩ | hid
  · rw [hb, getD_set_ne]
    rcases hi with h4 | h4 | h4 | h4 <;> omega
  · rw [hb, getD_set_ne]
    omega
  · rw [hid]

/-- Call sequences never touch a buffer index outside `{0, 2, 4, 6, 8}`. -/
theorem runOps_pad (ops : List Op) :
    ∀ (st : HT16K33SegmentBig) (j : Nat),
      j ≠ 0 ∧ j ≠ 2 ∧ j ≠ 4 ∧ j ≠ 6 ∧ j ≠ 8 →
      (runOps st ops).buffer.getD j 0 = st.buffer.getD j 0 := by
  induction ops with
  | nil => intro st j _; rfl
  | cons op ops ih =>
    intro st j hpad
    rw [runOps, ih _ j hpad, runOp_pad st op j hpad]

/-! ### Claims -/

/-- Claim C1 is false as stated: `set_character` writes `CHARSET[char_val]`,
not `char_val` itself, so at digit 0 the space character stores
`CHARSET[0x00] = 0x3F` (not 0x00) and the minus character stores
`CHARSET[0x10] = 0x40` (not 0x10). -/
theorem set_character_space_minus_cex :
    (set_character initState [' '] 0).1.buffer.getD 0 0 = 0x3F
    ∧ ¬ (set_character initState [' '] 0).1.buffer.getD 0 0 = 0x00
    ∧ (set_character initState ['-'] 0).1.buffer.getD 0 0 = 0x40
    ∧ ¬ (set_character initState ['-'] 0).1.buffer.getD 0 0 = 0x10 := by
  decide

/-- Claim C1, amended: for every digit d with 0 <= d < 4, `set_character(" ", d)`
succeeds and writes `CHARSET[HT16K33_SEGMENT_SPACE_CHAR] = CHARSET[0x00] = 0x3F`
to `buffer[POS[d]]`, and `set_character("-", d)` succeeds and writes
`CHARSET[HT16K33_SEGMENT_MINUS_CHAR] = CHARSET[0x10] = 0x40`. -/
theorem set_character_space_minus (st : HT16K33SegmentBig) (d : Int)
    (hlen : st.buffer.length = 16) (hd0 : 0 ≤ d) (hd4 : d < 4) :
    ((set_character st [' '] d).2 = none
      ∧ (set_character st [' '] d).1.buffer.getD (POS.getD d.toNat 0) 0 = 0x3F)
    ∧ ((set_character st ['-'] d).2 = none
      ∧ (set_character st ['-'] d).1.buffer.getD (POS.getD d.toNat 0) 0 = 0x40) := by
  interval_cases d <;>
    exact ⟨⟨rfl, getD_set_self _ _ _ (by rw [hlen]; decide)⟩,
      rfl, getD_set_self _ _ _ (by rw [hlen]; decide)⟩

/-- Witness for the amended claim C1 at digit 1 on a fresh state. -/
theorem set_character_space_minus_w :
    ((set_character initState [' '] 1).2 = none
      ∧ (set_character initState [' '] 1).1.buffer.getD (POS.getD (1 : Int).toNat 0) 0 = 0x3F)
    ∧ ((set_character initState ['-'] 1).2 = none
      ∧ (set_character initState ['-'] 1).1.buffer.getD (POS.getD (1 : Int).toNat 0) 0 = 0x40) :=
  set_character_space_minus initState 1 (by decide) (by decide) (by decide)

/-- Claim C2 is false as stated: `set_character("deg", 0)` does not succeed.
The `"deg"` branch reads the bare name `HT16K33_SEGMENT_DEGREE_CHAR`, which is
a class attribute and not in scope as a local or module global, so the call
raises `NameError` before writing anything; `buffer[POS[0]]` stays 0x00. -/
theorem set_character_deg_cex :
    (set_character initState ['d', 'e', 'g'] 0).2 = some Err.nameError
    ∧ ¬ (set_character initState ['d', 'e', 'g'] 0).1.buffer.getD 0 0 = 0x11 := by
  decide

/-- Claim C2, amended: for every digit d with 0 <= d < 4,
`set_character("deg", d)` raises `NameError` (unresolved bare name
`HT16K33_SEGMENT_DEGREE_CHAR` on source line 134) before any buffer write, and
the state is returned exactly as it was. -/
theorem set_character_deg (st : HT16K33SegmentBig) (d : Int)
    (hd0 : 0 ≤ d) (hd4 : d < 4) :
    set_character st ['d', 'e', 'g'] d = (st, some Err.nameError) := by
  interval_cases d <;> rfl

/-- Witness for the amended claim C2 at digit 3 on a fresh state. -/
theorem set_character_deg_w :
    set_character initState ['d', 'e', 'g'] 3 = (initState, some Err.nameError) :=
  set_character_deg initState 3 (by decide) (by decide)

/-- Claim C3: for every digit d in {0,1,2,3} and number n with 0 <= n < 10,
`set_number(n, d)` succeeds, writes `CHARSET[n]` to `buffer[POS[d]]`, and is
the same call as `set_character(str(n), d)`. -/
theorem set_number_writes_charset (st : HT16K33SegmentBig) (n d : Int)
    (hlen : st.buffer.length = 16) (hd0 : 0 ≤ d) (hd4 : d < 4)
    (hn0 : 0 ≤ n) (hn10 : n < 10) :
    (set_number st n d).2 = none
    ∧ (set_number st n d).1.buffer.getD (POS.getD d.toNat 0) 0 = CHARSET.getD n.toNat 0
    ∧ set_number st n d = set_character st [Char.ofNat (48 + n.toNat)] d := by
  interval_cases n <;> interval_cases d <;>
    exact ⟨rfl, getD_set_self _ _ _ (by rw [hlen]; decide), rfl⟩

/-- Witness for claim C3 at number 5, digit 0 on a fresh state
(the buffer byte is `CHARSET[5] = 0x6D`). -/
theorem set_number_writes_charset_w :
    (set_number initState 5 0).2 = none
    ∧ (set_number initState 5 0).1.buffer.getD (POS.getD (0 : Int).toNat 0) 0
        = CHARSET.getD (5 : Int).toNat 0
    ∧ set_number initState 5 0 = set_character initState [Char.ofNat (48 + (5 : Int).toNat)] 0 :=
  set_number_writes_charset initState 5 0 (by decide) (by decide) (by decide)
    (by decide) (by decide)

/-- Claim C4: for every digit d in {0,1,2,3} and glyph g with 0 <= g < 0x80,
`set_glyph(g, d)` succeeds and writes `g & 0x7F` (equal to `g` under the
precondition) to `buffer[POS[d]]`; for every g >= 0x80 and any d,
`set_glyph(g, d)` raises `InvalidArgument`. -/
theorem set_glyph_spec (st : HT16K33SegmentBig) (g d : Int)
    (hlen : st.buffer.length = 16) :
    (0 ≤ d → d < 4 → 0 ≤ g → g < 0x80 →
      (set_glyph st g d).2 = none
      ∧ (set_glyph st g d).1.buffer.getD (POS.getD d.toNat 0) 0 = g.toNat &&& 0x7F
      ∧ g.toNat &&& 0x7F = g.toNat)
    ∧ (0x80 ≤ g → set_glyph st g d = (st, some Err.invalidArgument)) := by
  constructor
  · intro hd0 hd4 hg0 hg128
    have hmask : g.toNat &&& 0x7F = g.toNat := by
      have h7 : (0x7F : Nat) = 2 ^ 7 - 1 := by norm_num
      rw [h7, Nat.and_pow_two_sub_one_eq_mod]
      omega
    have hidx : POS.getD d.toNat 0 < st.buffer.length := by
      rcases POS_getD_mem d hd0 hd4 with h | h | h | h <;> omega
    unfold set_glyph
    rw [if_pos ⟨hd0, hd4⟩, if_pos ⟨hg0, hg128⟩]
    exact ⟨rfl, getD_set_self _ _ _ hidx, hmask⟩
  · intro hg
    unfold set_glyph
    split
    · rw [if_neg]
      intro hc
      omega
    · rfl

/-- Witness for claim C4 at glyph 0x55, digit 1 (success half) and glyph
0x80, digit 1 (failure half) on a fresh state. -/
theorem set_glyph_spec_w :
    ((set_glyph initState 0x55 1).2 = none
      ∧ (set_glyph initState 0x55 1).1.buffer.getD (POS.getD (1 : Int).toNat 0) 0
          = (0x55 : Int).toNat &&& 0x7F
      ∧ (0x55 : Int).toNat &&& 0x7F = (0x55 : Int).toNat)
    ∧ set_glyph initState 0x80 1 = (initState, some Err.invalidArgument) :=
  ⟨(set_glyph_spec initState 0x55 1 (by decide)).1 (by decide) (by decide)
      (by decide) (by decide),
   (set_glyph_spec initState 0x80 1 (by decide)).2 (by decide)⟩

/-- Claim C5: for every pattern p with 0 <= p <= 0x1E, `set_colon(p)` succeeds
and writes p verbatim into `buffer[4]`; for every p >= 0x1F and every p < 0 it
raises `InvalidArgument`. -/
theorem set_colon_spec (st : HT16K33SegmentBig) (p : Int)
    (hlen : st.buffer.length = 16) :
    (0 ≤ p → p ≤ 0x1E →
      (set_colon st p).2 = none
      ∧ (set_colon st p).1.buffer.getD 4 0 = p.toNat)
    ∧ (0x1F ≤ p ∨ p < 0 → set_colon st p = (st, some Err.invalidArgument)) := by
  constructor
  · intro hp0 hp30
    unfold set_colon
    rw [if_pos ⟨hp0, by omega⟩]
    exact ⟨rfl, getD_set_self _ _ _ (by rw [hlen]; decide)⟩
  · intro hp
    unfold set_colon
    rw [if_neg]
    intro hc
    omega

/-- Witness for claim C5 at the boundary patterns 0x1E (success) and 0x1F
(failure) on a fresh state. -/
theorem set_colon_spec_w :
    ((set_colon initState 0x1E).2 = none
      ∧ (set_colon initState 0x1E).1.buffer.getD 4 0 = (0x1E : Int).toNat)
    ∧ set_colon initState 0x1F = (initState, some Err.invalidArgument) :=
  ⟨(set_colon_spec initState 0x1E (by decide)).1 (by decide) (by decide),
   (set_colon_spec initState 0x1F (by decide)).2 (Or.inl (by decide))⟩

/-- Claim C6: every setter call, on every input, either fully succeeds (the
buffer gets one byte written) or raises an error with the buffer and the
stored `point_pattern` exactly as they were before the call. -/
theorem ops_error_atomic (st : HT16K33SegmentBig) (op : Op) :
    ((runOp st op).2 = none ∧ ∃ i v, (runOp st op).1.buffer = st.buffer.set i v)
    ∨ ((∃ e, (runOp st op).2 = some e) ∧ (runOp st op).1 = st) := by
  cases op with
  | colon p =>
    rcases set_colon_cases st p with ⟨_, _, heq⟩ | heq
    · exact Or.inl ⟨by rw [runOp, heq], 4, p.toNat, by rw [runOp, heq]⟩
    · exact Or.inr ⟨⟨Err.invalidArgument, by rw [runOp, heq]⟩, by rw [runOp, heq]⟩
  | glyph g d =>
    rcases set_glyph_cases st g d with ⟨_, _, v, heq⟩ | heq
    · exact Or.inl ⟨by rw [runOp, heq], POS.getD d.toNat 0, v, by rw [runOp, heq]⟩
    · exact Or.inr ⟨⟨Err.invalidArgument, by rw [runOp, heq]⟩, by rw [runOp, heq]⟩
  | number n d =>
    rcases set_number_cases st n d with ⟨_, _, v, heq⟩ | ⟨e, heq⟩
    · exact Or.inl ⟨by rw [runOp, heq], POS.getD d.toNat 0, CHARSET.getD v 0,
        by rw [runOp, heq]⟩
    · exact Or.inr ⟨⟨e, by rw [runOp, heq]⟩, by rw [runOp, heq]⟩
  | character ch d =>
    rcases set_character_cases st ch d with ⟨_, _, v, heq⟩ | ⟨e, heq⟩
    · exact Or.inl ⟨by rw [runOp, heq], POS.getD d.toNat 0, CHARSET.getD v 0,
        by rw [runOp, heq]⟩
    · exact Or.inr ⟨⟨e, by rw [runOp, heq]⟩, by rw [runOp, heq]⟩

/-- Claim C7: for every digit d in {0,1,2,3} and k < 6, the k-th hex letter
(code point 97 + k, i.e. one of a-f) succeeds and writes `CHARSET[10 + k]` to
`buffer[POS[d]]`, and the uppercase form (code point 65 + k) is the same call
as the lowercase one. -/
theorem set_character_hex_letters (st : HT16K33SegmentBig) (d : Int) (k : Nat)
    (hlen : st.buffer.length = 16) (hd0 : 0 ≤ d) (hd4 : d < 4) (hk : k < 6) :
    (set_character st [Char.ofNat (97 + k)] d).2 = none
    ∧ (set_character st [Char.ofNat (97 + k)] d).1.buffer.getD (POS.getD d.toNat 0) 0
        = CHARSET.getD (10 + k) 0
    ∧ set_character st [Char.ofNat (65 + k)] d = set_character st [Char.ofNat (97 + k)] d := by
  interval_cases k <;> interval_cases d <;>
    exact ⟨rfl, getD_set_self _ _ _ (by rw [hlen]; decide), rfl⟩

/-- Witness for claim C7 at letter 'f' (k = 5), digit 3 on a fresh state. -/
theorem set_character_hex_letters_w :
    (set_character initState [Char.ofNat (97 + 5)] 3).2 = none
    ∧ (set_character initState [Char.ofNat (97 + 5)] 3).1.buffer.getD
        (POS.getD (3 : Int).toNat 0) 0 = CHARSET.getD (10 + 5) 0
    ∧ set_character initState [Char.ofNat (65 + 5)] 3
        = set_character initState [Char.ofNat (97 + 5)] 3 :=
  set_character_hex_letters initState 3 5 (by decide) (by decide) (by decide) (by decide)

/-- Claim C8: `buffer[4]` always mirrors the stored `point_pattern`: both are
0x00 in the fresh state; a successful `set_colon(p)` sets both to p; the other
three setters change neither; and consequently every state reachable from the
fresh state by any call sequence satisfies `buffer[4] = point_pattern`. -/
theorem buffer4_mirrors_point_pattern (ops : List Op) (st : HT16K33SegmentBig)
    (p g n d : Int) (ch : List Char) (hlen : st.buffer.length = 16) :
    (initState.buffer.getD 4 0 = 0x00 ∧ initState.point_pattern = 0x00)
    ∧ ((set_colon st p).2 = none →
        (set_colon st p).1.buffer.getD 4 0 = p.toNat
        ∧ (set_colon st p).1.point_pattern = p.toNat)
    ∧ ((set_glyph st g d).1.buffer.getD 4 0 = st.buffer.getD 4 0
        ∧ (set_glyph st g d).1.point_pattern = st.point_pattern)
    ∧ ((set_number st n d).1.buffer.getD 4 0 = st.buffer.getD 4 0
        ∧ (set_number st n d).1.point_pattern = st.point_pattern)
    ∧ ((set_character st ch d).1.buffer.getD 4 0 = st.buffer.getD 4 0
        ∧ (set_character st ch d).1.point_pattern = st.point_pattern)
    ∧ (runOps initState ops).buffer.getD 4 0 = (runOps initState ops).point_pattern := by
  refine ⟨⟨by decide, by decide⟩, ?_, ?_, ?_, ?_, ?_⟩
  · intro h2
    rcases set_colon_cases st p with ⟨_, _, heq⟩ | heq
    · rw [heq]
      exact ⟨getD_set_self _ _ _ (by rw [hlen]; decide), rfl⟩
    · rw [heq] at h2
      cases h2
  · rcases set_glyph_cases st g d with ⟨h0, h4, v, heq⟩ | heq
    · rw [heq]
      refine ⟨getD_set_ne _ _ _ _ ?_, rfl⟩
      rcases POS_getD_mem d h0 h4 with h | h | h | h <;> omega
    · rw [heq]
      exact ⟨rfl, rfl⟩
  · rcases set_number_cases st n d with ⟨h0, h4, v, heq⟩ | ⟨e, heq⟩
    · rw [heq]
      refine ⟨getD_set_ne _ _ _ _ ?_, rfl⟩
      rcases POS_getD_mem d h0 h4 with h | h | h | h <;> omega
    · rw [heq]
      exact ⟨rfl, rfl⟩
  · rcases set_character_cases st ch d with ⟨h0, h4, v, heq⟩ | ⟨e, heq⟩
    · rw [heq]
      refine ⟨getD_set_ne _ _ _ _ ?_, rfl⟩
      rcases POS_getD_mem d h0 h4 with h | h | h | h <;> omega
    · rw [heq]
      exact ⟨rfl, rfl⟩
  · exact runOps_mirrors ops initState (by decide) rfl

/-- Witness for claim C8: the colon-row mirror facts at a concrete state and
concrete arguments, with the reachable state taken after one `set_number` and
one `set_colon` call. -/
theorem buffer4_mirrors_point_pattern_w :
    (initState.buffer.getD 4 0 = 0x00 ∧ initState.point_pattern = 0x00)
    ∧ ((set_colon initState 2).2 = none →
        (set_colon initState 2).1.buffer.getD 4 0 = (2 : Int).toNat
        ∧ (set_colon initState 2).1.point_pattern = (2 : Int).toNat)
    ∧ ((set_glyph initState 1 0).1.buffer.getD 4 0 = initState.buffer.getD 4 0
        ∧ (set_glyph initState 1 0).1.point_pattern = initState.point_pattern)
    ∧ ((set_number initState 1 0).1.buffer.getD 4 0 = initState.buffer.getD 4 0
        ∧ (set_number initState 1 0).1.point_pattern = initState.point_pattern)
    ∧ ((set_character initState ['a'] 0).1.buffer.getD 4 0 = initState.buffer.getD 4 0
        ∧ (set_character initState ['a'] 0).1.point_pattern = initState.point_pattern)
    ∧ (runOps initState [Op.number 5 0, Op.colon 3]).buffer.getD 4 0
        = (runOps initState [Op.number 5 0, Op.colon 3]).point_pattern :=
  buffer4_mirrors_point_pattern [Op.number 5 0, Op.colon 3] initState
    2 1 1 0 ['a'] (by decide)

/-- Claim C9: every buffer byte at an index outside {0, 2, 4, 6, 8} is 0x00
after construction and stays 0x00 after every sequence of setter calls. -/
theorem padding_stays_zero (ops : List Op) (j : Nat) (hj : j < 16)
    (hpad : j ≠ 0 ∧ j ≠ 2 ∧ j ≠ 4 ∧ j ≠ 6 ∧ j ≠ 8) :
    initState.buffer.getD j 0 = 0
    ∧ (runOps initState ops).buffer.getD j 0 = 0 := by
  have hbase : initState.buffer.getD j 0 = 0 := by
    interval_cases j <;> rfl
  exact ⟨hbase, by rw [runOps_pad ops initState j hpad, hbase]⟩

/-- Witness for claim C9 at index 9 after a four-call sequence covering all
setters. -/
theorem padding_stays_zero_w :
    initState.buffer.getD 9 0 = 0
    ∧ (runOps initState
        [Op.number 5 0, Op.character ['a'] 1, Op.glyph 0x7F 2, Op.colon 0x10]).buffer.getD 9 0
      = 0 :=
  padding_stays_zero [Op.number 5 0, Op.character ['a'] 1, Op.glyph 0x7F 2, Op.colon 0x10]
    9 (by decide) (by decide)

/-- Claim C10: a successful `set_glyph`, `set_number` or `set_character` call
modifies only `buffer[POS[d]]`, leaving every other buffer byte and
`point_pattern` unchanged; a successful `set_colon` modifies only `buffer[4]`
and `point_pattern`, leaving every other buffer byte unchanged. -/
theorem ops_frame (st : HT16K33SegmentBig) (g n d p : Int) (ch : List Char) (j : Nat) :
    ((set_glyph st g d).2 = none → j ≠ POS.getD d.toNat 0 →
        (set_glyph st g d).1.buffer.getD j 0 = st.buffer.getD j 0)
    ∧ (set_glyph st g d).1.point_pattern = st.point_pattern
    ∧ ((set_number st n d).2 = none → j ≠ POS.getD d.toNat 0 →
        (set_number st n d).1.buffer.getD j 0 = st.buffer.getD j 0)
    ∧ (set_number st n d).1.point_pattern = st.point_pattern
    ∧ ((set_character st ch d).2 = none → j ≠ POS.getD d.toNat 0 →
        (set_character st ch d).1.buffer.getD j 0 = st.buffer.getD j 0)
    ∧ (set_character st ch d).1.point_pattern = st.point_pattern
    ∧ ((set_colon st p).2 = none → j ≠ 4 →
        (set_colon st p).1.buffer.getD j 0 = st.buffer.getD j 0) := by
  refine ⟨?_, ?_, ?_, ?_, ?_, ?_, ?_⟩
  · intro h2 hj
    rcases set_glyph_cases st g d with ⟨_, _, v, heq⟩ | heq
    · rw [heq]
      exact getD_set_ne _ _ _ _ (Ne.symm hj)
    · rw [heq] at h2
      cases h2
  · rcases set_glyph_cases st g d with ⟨_, _, v, heq⟩ | heq <;> rw [heq]
  · intro h2 hj
    rcases set_number_cases st n d with ⟨_, _, v, heq⟩ | ⟨e, heq⟩
    · rw [heq]
      exact getD_set_ne _ _ _ _ (Ne.symm hj)
    · rw [heq] at h2
      cases h2
  · rcases set_number_cases st n d with ⟨_, _, v, heq⟩ | ⟨e, heq⟩ <;> rw [heq]
  · intro h2 hj
    rcases set_character_cases st ch d with ⟨_, _, v, heq⟩ | ⟨e, heq⟩
    · rw [heq]
      exact getD_set_ne _ _ _ _ (Ne.symm hj)
    · rw [heq] at h2
      cases h2
  · rcases set_character_cases st ch d with ⟨_, _, v, heq⟩ | ⟨e, heq⟩ <;> rw [heq]
  · intro h2 hj
    rcases set_colon_cases st p with ⟨_, _, heq⟩ | heq
    · rw [heq]
      exact getD_set_ne _ _ _ _ (Ne.symm hj)
    · rw [heq] at h2
      cases h2

/-- Witness for claim C10 at index 9 with concrete successful calls on a
fresh state. -/
theorem ops_frame_w :
    ((set_glyph initState 5 0).2 = none → (9 : Nat) ≠ POS.getD (0 : Int).toNat 0 →
        (set_glyph initState 5 0).1.buffer.getD 9 0 = initState.buffer.getD 9 0)
    ∧ (set_glyph initState 5 0).1.point_pattern = initState.point_pattern
    ∧ ((set_number initState 5 0).2 = none → (9 : Nat) ≠ POS.getD (0 : Int).toNat 0 →
        (set_number initState 5 0).1.buffer.getD 9 0 = initState.buffer.getD 9 0)
    ∧ (set_number initState 5 0).1.point_pattern = initState.point_pattern
    ∧ ((set_character initState ['a'] 0).2 = none → (9 : Nat) ≠ POS.getD (0 : Int).toNat 0 →
        (set_character initState ['a'] 0).1.buffer.getD 9 0 = initState.buffer.getD 9 0)
    ∧ (set_character initState ['a'] 0).1.point_pattern = initState.point_pattern
    ∧ ((set_colon initState 2).2 = none → (9 : Nat) ≠ 4 →
        (set_colon initState 2).1.buffer.getD 9 0 = initState.buffer.getD 9 0) :=
  ops_frame initState 5 5 0 2 ['a'] 9

end HT16K33
